import Mathlib

/-!
Verification development for the voice2learn live-session orchestrator
(`src/components/SessionUI.tsx`, `src/components/Whiteboard.tsx`).

Each definition below is a shallow embedding of a function or a piece of
mutable state of the source; theorems at the end settle the specification
claims against these definitions.
-/

namespace V2L

/-! ## Text normalization (`formatAIText`, SessionUI.tsx lines 24-26)

The source is
`text.replace(/([一-龥])\s+([一-龥])/g, '$1$2')`:
a single left-to-right scan; each match consumes a CJK character, a
non-empty whitespace run and a second CJK character, replaces it by the
two CJK characters, and the scan resumes at the character *after* the
second CJK character (JavaScript global replace uses non-overlapping
matches).  We embed this scan as a three-state automaton over the
character list: `neutral` (no partial match), `afterCJK c` (a CJK
character `c` read, it may be the first group of a match), and
`afterWS c ws` (a CJK character `c` followed by the non-empty whitespace
run `ws` read). -/

/-- Character class `[一-龥]` of the source regex. -/
def isCJK (c : Char) : Bool := 0x4e00 ≤ c.toNat && c.toNat ≤ 0x9fa5

/-- JavaScript `\s` class, restricted to its common members (ASCII
whitespace, NBSP and BOM); the claims only exercise the plain space. -/
def isJsWS (c : Char) : Bool :=
  c = ' ' || c = '\t' || c = '\n' || c = '\r' ||
  c.toNat = 0x0b || c.toNat = 0x0c || c.toNat = 0xa0 || c.toNat = 0xfeff

/-- Scanner state of the regex replace: nothing pending, a pending CJK
character, or a pending CJK character plus a pending whitespace run. -/
inductive FmtState where
  | neutral : FmtState
  | afterCJK (c : Char) : FmtState
  | afterWS (c : Char) (ws : List Char) : FmtState

/-- One left-to-right scan of
`replace(/([一-龥])\s+([一-龥])/g, '$1$2')`.
On completing a match (pending CJK, whitespace run, current CJK) the two
CJK characters are emitted without the whitespace and the scan restarts
after the second character; any failed partial match is flushed verbatim. -/
def fmtRun : FmtState → List Char → List Char
  | FmtState.neutral, [] => []
  | FmtState.afterCJK c, [] => [c]
  | FmtState.afterWS c ws, [] => c :: ws
  | FmtState.neutral, x :: rest =>
      if isCJK x then fmtRun (FmtState.afterCJK x) rest
      else x :: fmtRun FmtState.neutral rest
  | FmtState.afterCJK c, x :: rest =>
      if isCJK x then c :: fmtRun (FmtState.afterCJK x) rest
      else if isJsWS x then fmtRun (FmtState.afterWS c [x]) rest
      else c :: x :: fmtRun FmtState.neutral rest
  | FmtState.afterWS c ws, x :: rest =>
      if isCJK x then c :: x :: fmtRun FmtState.neutral rest
      else if isJsWS x then fmtRun (FmtState.afterWS c (ws ++ [x])) rest
      else c :: (ws ++ x :: fmtRun FmtState.neutral rest)

/-- `formatAIText` on character lists. -/
def formatCore (l : List Char) : List Char := fmtRun FmtState.neutral l

/-- `formatAIText` (SessionUI.tsx lines 24-26). -/
def formatAIText (s : String) : String := String.mk (formatCore s.data)

/-- JavaScript truthiness of an optional string argument (`!!v` /
`if (v)`): present and non-empty. -/
def jsTruthy (v : Option String) : Bool :=
  match v with
  | none => false
  | some s => s ≠ ""

/-! ## Audio output scheduler (SessionUI.tsx)

The playback state is spread over `nextStartTimeRef` and
`activeSourcesRef`.  `enqueue` embeds the audio-payload branch of
`onmessage` (lines 284-302): it sets
`nextStartTime := max nextStartTime currentTime`, starts the new source
at that time, advances `nextStartTime` by the buffer duration and adds
the source to the active set.  `interrupt` embeds `cleanupAudio`
(lines 99-104): it stops every active source, clears the set and resets
`nextStartTime` to `0`.  Sources are identified by the order in which
they were created; `started` records each source with its scheduled
start time, `stopped` records every source on which `stop()` was
called. -/

/-- Playback clock times and buffer durations, in seconds. -/
abbrev Seconds := ℚ

/-- The mutable playback state held in `nextStartTimeRef` /
`activeSourcesRef`, plus the `started`/`stopped` histories used to state
scheduling properties. -/
structure SchedState where
  nextStartTime : Seconds
  active : List Nat
  nextId : Nat
  started : List (Nat × Seconds)
  stopped : List Nat
deriving DecidableEq, Repr

/-- Initial playback state (`nextStartTimeRef.current = 0`, empty
active set). -/
def initSched : SchedState :=
  { nextStartTime := 0, active := [], nextId := 0, started := [], stopped := [] }

/-- The audio-payload branch of `onmessage` (SessionUI.tsx lines
284-302): schedule one decoded buffer of duration `dur` when the output
context's clock reads `clock`. -/
def enqueue (clock dur : Seconds) (s : SchedState) : SchedState :=
  let start := max s.nextStartTime clock
  { nextStartTime := start + dur,
    active := s.active ++ [s.nextId],
    nextId := s.nextId + 1,
    started := s.started ++ [(s.nextId, start)],
    stopped := s.stopped }

/-- A source's `onended` callback (SessionUI.tsx lines 294-297):
the source leaves the active set. -/
def onEnded (id : Nat) (s : SchedState) : SchedState :=
  { s with active := s.active.erase id }

/-- `cleanupAudio` on the playback state (SessionUI.tsx lines 99-104):
stop every active source, clear the set, reset `nextStartTime` to 0. -/
def interrupt (s : SchedState) : SchedState :=
  { s with stopped := s.stopped ++ s.active, active := [], nextStartTime := 0 }

/-! ## Connection lifecycle (SessionUI.tsx)

`LifeState` collects the refs and the `status` state of `SessionUI`:
`status`, `isConnectingRef`, `isConnectedRef`, `reconnectAttemptsRef`,
`reconnectTimeoutRef`, `sessionRef` (non-null?), `sessionPromiseRef`
(non-null?), `streamRef` (non-null?), `audioContextsRef` (non-null?),
and the playback state.  `liveTimers` models the browser's set of armed
timeouts (id paired with delay in milliseconds) so that cancellation
behaviour is observable; `nextTimerId` allocates fresh timeout ids.
Observable side effects of the teardown and connect routines are
recorded as an ordered `Effect` list. -/

/-- The `ConnectionStatus` union type (SessionUI.tsx line 22). -/
inductive Status where
  | connecting | connected | reconnecting | disconnected | error | ready_to_start
deriving DecidableEq, Repr

/-- Observable side effects of the lifecycle routines, in program
order: stopping one playback source, clearing one armed timeout,
closing the live session, stopping the capture stream's tracks,
creating the audio contexts, requesting the microphone stream, and
issuing `ai.live.connect`. -/
inductive Effect where
  | stopSource (id : Nat)
  | clearTimer (id : Nat)
  | closeTransport
  | stopCaptureTrack
  | openAudioContexts
  | openCaptureStream
  | connectAttempt (isReconnect : Bool)
deriving DecidableEq, Repr

/-- The session's mutable lifecycle state (refs and `status` of
`SessionUI`). -/
structure LifeState where
  status : Status
  isConnecting : Bool
  isConnected : Bool
  reconnectAttempts : Nat
  reconnectTimeoutRef : Option Nat
  liveTimers : List (Nat × Nat)
  nextTimerId : Nat
  sessionRefSet : Bool
  sessionPromiseSet : Bool
  streamOpen : Bool
  audioCtxOpen : Bool
  sched : SchedState
  isSpeaking : Bool
deriving DecidableEq, Repr

/-- The state at mount: `status = 'connecting'`, all refs null, zero
reconnect attempts. -/
def initLife : LifeState :=
  { status := Status.connecting, isConnecting := false, isConnected := false,
    reconnectAttempts := 0, reconnectTimeoutRef := none, liveTimers := [],
    nextTimerId := 0, sessionRefSet := false, sessionPromiseSet := false,
    streamOpen := false, audioCtxOpen := false, sched := initSched,
    isSpeaking := false }

/-- `handleDisconnect` (SessionUI.tsx lines 331-345), invoked by both
the `onerror` and the `onclose` callback: clear the connected and
connecting flags; if fewer than 5 attempts were made, compute the delay
`2^attempts * 1000` ms, increment the attempt counter, set status to
`reconnecting` and arm a new timeout whose id is stored in
`reconnectTimeoutRef` (overwriting the previous handle without
`clearTimeout`); otherwise set status to `error`. -/
def handleDisconnect (s : LifeState) : LifeState :=
  let s1 := { s with isConnected := false, isConnecting := false }
  if s1.reconnectAttempts < 5 then
    { s1 with
      reconnectAttempts := s1.reconnectAttempts + 1,
      status := Status.reconnecting,
      liveTimers := s1.liveTimers ++ [(s1.nextTimerId, 2 ^ s1.reconnectAttempts * 1000)],
      reconnectTimeoutRef := some s1.nextTimerId,
      nextTimerId := s1.nextTimerId + 1 }
  else
    { s1 with status := Status.error }

/-- `stopEverything` (SessionUI.tsx lines 106-126), in source order:
`cleanupAudio()` (stop each active source, clear the set, zero
`nextStartTime`, `isSpeaking := false`), clear the connected/connecting
flags, `clearTimeout` on a pending reconnect handle, close the session
if the ref is set and null it, null the session promise, and stop the
capture stream's tracks if present.  Returns the new state and the
ordered effect trace. -/
def stopEverything (s : LifeState) : LifeState × List Effect :=
  let audioEffs := s.sched.active.map Effect.stopSource
  let s1 := { s with sched := interrupt s.sched, isSpeaking := false,
                     isConnected := false, isConnecting := false }
  let timerStep : LifeState × List Effect :=
    match s1.reconnectTimeoutRef with
    | some t =>
        ({ s1 with reconnectTimeoutRef := none,
                   liveTimers := s1.liveTimers.filter (fun p => p.1 ≠ t) },
         [Effect.clearTimer t])
    | none => (s1, [])
  let s2 := timerStep.1
  let sessStep : LifeState × List Effect :=
    if s2.sessionRefSet then
      ({ s2 with sessionRefSet := false, sessionPromiseSet := false },
       [Effect.closeTransport])
    else ({ s2 with sessionPromiseSet := false }, [])
  let s3 := sessStep.1
  let streamStep : LifeState × List Effect :=
    if s3.streamOpen then
      ({ s3 with streamOpen := false }, [Effect.stopCaptureTrack])
    else (s3, [])
  (streamStep.1, audioEffs ++ timerStep.2 ++ sessStep.2 ++ streamStep.2)

/-- The synchronous prefix of `connectToLiveAPI` (SessionUI.tsx lines
181-208), up to the point where control is handed to the asynchronous
connection attempt: return immediately if `isConnectingRef` is set;
otherwise set it, then either (fresh call) set status `connecting` and
run `stopEverything` — which clears `isConnectingRef` again — or
(reconnect call) set status `reconnecting`, run `cleanupAudio` and
close the session ref without nulling it; then create the audio
contexts and request the microphone stream if absent, and issue the
connection attempt, storing the session promise. -/
def connectToLiveAPI (isReconnect : Bool) (s : LifeState) : LifeState × List Effect :=
  if s.isConnecting then (s, [])
  else
    let s1 := { s with isConnecting := true }
    let branch : LifeState × List Effect :=
      if isReconnect then
        let audioEffs := s1.sched.active.map Effect.stopSource
        let s2 := { s1 with status := (Status.reconnecting),
                            sched := interrupt s1.sched, isSpeaking := false }
        if s2.sessionRefSet then (s2, audioEffs ++ [Effect.closeTransport])
        else (s2, audioEffs)
      else
        let s2 := { s1 with status := Status.connecting }
        stopEverything s2
    let s3 := branch.1
    let ctxStep : LifeState × List Effect :=
      if s3.audioCtxOpen then (s3, [])
      else ({ s3 with audioCtxOpen := true }, [Effect.openAudioContexts])
    let s4 := ctxStep.1
    let streamStep : LifeState × List Effect :=
      if s4.streamOpen then (s4, [])
      else ({ s4 with streamOpen := true }, [Effect.openCaptureStream])
    let s5 := streamStep.1
    ({ s5 with sessionPromiseSet := true },
     branch.2 ++ ctxStep.2 ++ streamStep.2 ++ [Effect.connectAttempt isReconnect])

/-- The `onopen` callback (SessionUI.tsx lines 210-238): reset the
attempt counter, clear `isConnectingRef`; a reconnect attempt becomes
`connected` immediately, a fresh attempt waits for user activation in
`ready_to_start`. -/
def onOpen (isReconnect : Bool) (s : LifeState) : LifeState :=
  let s1 := { s with reconnectAttempts := 0, isConnecting := false,
                     sessionRefSet := true }
  if isReconnect then { s1 with isConnected := true, status := Status.connected }
  else { s1 with status := Status.ready_to_start }

/-- `handleDisconnect` iterated over a run of consecutive open
failures, starting from the freshly mounted session.  (The reconnect
attempt fired between two consecutive failures,
`connectToLiveAPI true`, leaves the attempt counter and the timer
bookkeeping untouched, so consecutive failures compose as iterates of
`handleDisconnect`.) -/
def afterFailures (n : Nat) : LifeState := handleDisconnect^[n] initLife

/-! ## Tool dispatcher (`onmessage` toolCall branch, SessionUI.tsx
lines 240-260, and `tutorDraw`, Whiteboard.tsx lines 35-82) -/

/-- Canvas operations performed by `tutorDraw`: the four drawing
primitives of its `switch`, the `clearCanvas(true)` path, and the
`saveToLocalStorage()` persistence write it issues after drawing. -/
inductive CanvasOp where
  | strokeRect
  | arcCircle
  | strokeLine
  | fillText
  | clearCanvas
  | persistSave
deriving DecidableEq, Repr

/-- Canvas operations that draw (the persistence write is not a draw
effect). -/
def isDrawOp (op : CanvasOp) : Bool :=
  match op with
  | CanvasOp.persistSave => false
  | _ => true

/-- `tutorDraw` (Whiteboard.tsx lines 35-82): `action = "clear"` runs
`clearCanvas(true)` (which clears, repaints white and re-saves, guarded
on the context being available); otherwise, if the canvas context is
available, the `switch` maps the four recognized actions to one drawing
primitive each — an unrecognized action falls through with no drawing —
and `saveToLocalStorage()` runs afterwards. -/
def tutorDraw (ctxReady : Bool) (action : String) : List CanvasOp :=
  if action = "clear" then
    if ctxReady then [CanvasOp.clearCanvas, CanvasOp.persistSave] else []
  else if ctxReady = false then []
  else
    (if action = "draw_rect" then [CanvasOp.strokeRect]
     else if action = "draw_circle" then [CanvasOp.arcCircle]
     else if action = "draw_line" then [CanvasOp.strokeLine]
     else if action = "write_text" then [CanvasOp.fillText]
     else []) ++ [CanvasOp.persistSave]

/-- The learning-material card (`LearningMaterial`, SessionUI.tsx lines
10-15): `isGenerating` is the image-generation-in-flight flag. -/
structure LearningMaterial where
  title : String
  content : String
  imageUrl : Option String
  isGenerating : Bool
deriving DecidableEq, Repr

/-- One element of `message.toolCall.functionCalls`: the tool name, the
invocation id, and the arguments the two declared tools read
(`args.action`, `args.title`, `args.content`, `args.imageUrl`,
`args.image_prompt`). -/
structure FunctionCallMsg where
  name : String
  id : String
  action : String
  title : String
  content : String
  imageUrl : Option String
  imagePrompt : Option String
deriving DecidableEq, Repr

/-- An acknowledgment sent via `sendToolResponse`
(`functionResponses: { id: fc.id, name: fc.name, ... }`). -/
structure ToolAck where
  id : String
  name : String
deriving DecidableEq, Repr

/-- What dispatching one function call produces: the acknowledgments
sent, the canvas operations performed, the replacement material (if the
call replaced it) and the image-generation request issued (if any). -/
structure DispatchResult where
  acks : List ToolAck
  draws : List CanvasOp
  newMaterial : Option LearningMaterial
  imageRequest : Option String
deriving DecidableEq, Repr

/-- The `toolCall` branch of `onmessage` for a single function call
(SessionUI.tsx lines 240-260).  `wbMounted` is whether
`whiteboardRef.current` is non-null, `ctxReady` whether the whiteboard
canvas context exists, `sessionLive` whether the session promise
resolves to a non-null session (each acknowledgment is sent inside
`sessionPromise.then(s => s?.sendToolResponse(...))`, so it is dropped
when `s` is null).  A call whose name is neither `draw_on_whiteboard`
nor `show_learning_material` matches no branch: nothing happens and no
acknowledgment is sent. -/
def dispatchToolCall (wbMounted ctxReady sessionLive : Bool)
    (fc : FunctionCallMsg) : DispatchResult :=
  if fc.name = "draw_on_whiteboard" then
    { acks := if sessionLive then [{ id := fc.id, name := fc.name }] else [],
      draws := if wbMounted then tutorDraw ctxReady fc.action else [],
      newMaterial := none,
      imageRequest := none }
  else if fc.name = "show_learning_material" then
    if fc.action = "show" then
      { acks := if sessionLive then [{ id := fc.id, name := fc.name }] else [],
        draws := [],
        newMaterial := some
          { title := formatAIText fc.title,
            content := formatAIText fc.content,
            imageUrl := fc.imageUrl,
            isGenerating := jsTruthy fc.imagePrompt },
        imageRequest := if jsTruthy fc.imagePrompt then fc.imagePrompt else none }
    else
      { acks := if sessionLive then [{ id := fc.id, name := fc.name }] else [],
        draws := [], newMaterial := none, imageRequest := none }
  else
    { acks := [], draws := [], newMaterial := none, imageRequest := none }

/-! ## Learning-material updates (SessionUI.tsx lines 137-154 and
245-258)

`currentMaterial` is an `Option LearningMaterial`.  A `show` call
replaces it wholesale; the asynchronous completion of
`generateImageForMaterial` runs
`setCurrentMaterial(prev => prev ? { ...prev, imageUrl: url, isGenerating: false } : null)`
against whatever material is current at that moment — there is no
request id or generation token compared before applying it. -/

/-- The `setCurrentMaterial({...})` performed by a
`show_learning_material` call with `action = 'show'` (SessionUI.tsx
lines 247-252): wholesale replacement, titles and contents normalized,
`isGenerating` iff an `image_prompt` was supplied. -/
def showMaterial (title content : String) (imageUrl imagePrompt : Option String)
    (_cur : Option LearningMaterial) : Option LearningMaterial :=
  some { title := formatAIText title, content := formatAIText content,
         imageUrl := imageUrl, isGenerating := jsTruthy imagePrompt }

/-- The success continuation of `generateImageForMaterial`
(SessionUI.tsx line 148): patch `imageUrl` and clear `isGenerating` on
the current material, or do nothing if no material is shown. -/
def applyImageResult (url : String) (cur : Option LearningMaterial) :
    Option LearningMaterial :=
  match cur with
  | some m => some { m with imageUrl := some url, isGenerating := false }
  | none => none

/-- The failure path of `generateImageForMaterial` (SessionUI.tsx line
152): clear `isGenerating` on the current material. -/
def applyImageFailure (cur : Option LearningMaterial) : Option LearningMaterial :=
  match cur with
  | some m => some { m with isGenerating := false }
  | none => none

/-! ## Transcript assembler (`onmessage` transcription and
`turnComplete` branches, SessionUI.tsx lines 262-282)

Texts are embedded as character lists.  The pending accumulators are
`transcriptTextRef.current.user/.model`; `finalizeTurn` embeds the
`turnComplete` branch: the user record carries the raw accumulated user
text, the model record carries `formatAIText` of the accumulated model
text, a record is appended only if its (trimmed) text is non-empty, the
user record before the model record, and both accumulators are cleared
afterwards. -/

/-- Texts as character lists. -/
abbrev Txt := List Char

/-- The two speaker roles of a `ChatMessage`. -/
inductive Role where
  | user | model
deriving DecidableEq, Repr

/-- The per-role pending accumulators (`transcriptTextRef.current`). -/
structure PendingTranscript where
  user : Txt
  model : Txt
deriving DecidableEq, Repr

/-- A finalized transcript record (a `ChatMessage`, minus the
timestamp-derived id, which no claim constrains beyond its role tag). -/
structure TranscriptMsg where
  role : Role
  text : Txt
deriving DecidableEq, Repr

/-- The transcription branches of `onmessage` (SessionUI.tsx lines
262-268): concatenate an incoming fragment onto its role's
accumulator. -/
def appendFragment (r : Role) (t : Txt) (p : PendingTranscript) : PendingTranscript :=
  match r with
  | Role.user => { p with user := p.user ++ t }
  | Role.model => { p with model := p.model ++ t }

/-- A whole sequence of fragment arrivals, in order. -/
def applyFragments (fs : List (Role × Txt)) (p : PendingTranscript) : PendingTranscript :=
  fs.foldl (fun acc rt => appendFragment rt.1 rt.2 acc) p

/-- JavaScript `String.prototype.trim()` on character lists: strip
leading and trailing whitespace. -/
def jsTrim (t : Txt) : Txt :=
  ((t.dropWhile isJsWS).reverse.dropWhile isJsWS).reverse

/-- The `turnComplete` branch of `onmessage` (SessionUI.tsx lines
270-282): with `uTxt` the raw user accumulator and `mTxt` the
normalized model accumulator, if either trims to something non-empty,
append a user record (text `uTxt`) when `uTxt` trims non-empty and then
a model record (text `mTxt`) when `mTxt` trims non-empty; reset both
accumulators. -/
def finalizeTurn (p : PendingTranscript) (log : List TranscriptMsg) :
    PendingTranscript × List TranscriptMsg :=
  let uTxt := p.user
  let mTxt := formatCore p.model
  let uKeep : Bool := !(jsTrim uTxt).isEmpty
  let mKeep : Bool := !(jsTrim mTxt).isEmpty
  let log2 :=
    if uKeep || mKeep then
      log ++ (if uKeep then [{ role := Role.user, text := uTxt }] else [])
          ++ (if mKeep then [{ role := Role.model, text := mTxt }] else [])
    else log
  ({ user := [], model := [] }, log2)

/-- The user fragments of an arrival sequence, concatenated in arrival
order. -/
def userConcat (fs : List (Role × Txt)) : Txt :=
  (fs.filterMap (fun rt => if rt.1 = Role.user then some rt.2 else none)).flatten

/-- The model fragments of an arrival sequence, concatenated in arrival
order. -/
def modelConcat (fs : List (Role × Txt)) : Txt :=
  (fs.filterMap (fun rt => if rt.1 = Role.model then some rt.2 else none)).flatten

/-! ## Outbound audio frames (`scriptProcessor.onaudioprocess`,
SessionUI.tsx lines 225-235)

The capture callback reads `isConnectedRef.current` when it fires and
once more inside `sessionPromise.then` (together with the resolved
session being non-null) before sending; between the callback firing and
the promise continuation running, other events may have changed the
flag, so the two reads are modelled independently.  The callback holds
no buffer: a frame it does not send is gone. -/

/-- The environment one capture-callback invocation observes:
`isConnectedRef` when the callback fires, whether the session promise
resolves to a non-null session, and `isConnectedRef` when the promise
continuation runs. -/
structure FrameCtx where
  connectedAtInvocation : Bool
  sessionResolvedLive : Bool
  connectedAtResolution : Bool
deriving DecidableEq, Repr

/-- `scriptProcessor.onaudioprocess` (SessionUI.tsx lines 225-235) for
one captured frame (frames are identified by a number): return the
frames sent over the transport by this invocation.  `return` on a clear
connected flag, otherwise send inside the promise continuation iff the
session is non-null and the flag is still set. -/
def onaudioprocess (ctx : FrameCtx) (frame : Nat) : List Nat :=
  if ctx.connectedAtInvocation = false then []
  else if ctx.sessionResolvedLive && ctx.connectedAtResolution then [frame]
  else []

/-- All frames sent over a whole sequence of capture-callback
invocations, in order. -/
def processFrames : List (FrameCtx × Nat) → List Nat
  | [] => []
  | (c, f) :: rest => onaudioprocess c f ++ processFrames rest

/-! ## Concrete states used by counterexamples -/

/-- A live mid-session state: one playing source, one pending reconnect
timer (id 7), session, stream and audio contexts all present. -/
def liveSession : LifeState :=
  { status := Status.connected, isConnecting := false, isConnected := true,
    reconnectAttempts := 0, reconnectTimeoutRef := some 7,
    liveTimers := [(7, 1000)], nextTimerId := 8, sessionRefSet := true,
    sessionPromiseSet := true, streamOpen := true, audioCtxOpen := true,
    sched := { nextStartTime := 2, active := [0], nextId := 1,
               started := [(0, 0)], stopped := [] },
    isSpeaking := true }

/-- The material shown by a first `show` call carrying an image
prompt. -/
def matFirst : Option LearningMaterial :=
  showMaterial "Plant cells" "The cell wall." none (some "a plant cell") none

/-- The material after a second `show` call (no image prompt) has
replaced the first one while the first call's image request is still in
flight. -/
def matSecond : Option LearningMaterial :=
  showMaterial "Animal cells" "No cell wall." none none matFirst

/-- A function call using the declared whiteboard tool with an action
string outside its enumeration. -/
def drawWiggle : FunctionCallMsg :=
  { name := "draw_on_whiteboard", id := "call-1", action := "wiggle",
    title := "", content := "", imageUrl := none, imagePrompt := none }

/-- A function call whose tool name is neither of the two declared
tools. -/
def unknownTool : FunctionCallMsg :=
  { name := "render_chart", id := "call-9", action := "draw_rect",
    title := "", content := "", imageUrl := none, imagePrompt := none }

/-! ## Helper lemmas -/

/-- Accumulating a fragment sequence appends the user fragments, in
order, onto the user accumulator. -/
theorem applyFragments_user (fs : List (Role × Txt)) (p : PendingTranscript) :
    (applyFragments fs p).user = p.user ++ userConcat fs := by
  induction fs generalizing p with
  | nil => simp [applyFragments, userConcat]
  | cons rt fs ih =>
      obtain ⟨r, t⟩ := rt
      have step : applyFragments ((r, t) :: fs) p = applyFragments fs (appendFragment r t p) := by
        simp [applyFragments]
      rw [step, ih]
      cases r <;>
        simp [appendFragment, userConcat, List.filterMap_cons, List.append_assoc]

/-- Accumulating a fragment sequence appends the model fragments, in
order, onto the model accumulator. -/
theorem applyFragments_model (fs : List (Role × Txt)) (p : PendingTranscript) :
    (applyFragments fs p).model = p.model ++ modelConcat fs := by
  induction fs generalizing p with
  | nil => simp [applyFragments, modelConcat]
  | cons rt fs ih =>
      obtain ⟨r, t⟩ := rt
      have step : applyFragments ((r, t) :: fs) p = applyFragments fs (appendFragment r t p) := by
        simp [applyFragments]
      rw [step, ih]
      cases r <;>
        simp [appendFragment, modelConcat, List.filterMap_cons, List.append_assoc]

/-! ## Claim C1 — reconnect backoff -/

/-- C1 (counterexample): the claim says that after the 5th consecutive
open failure the state becomes Errored with no further reconnect
scheduled; in the code the 5th failure still finds
`reconnectAttempts = 4 < 5`, so the state is Reconnecting and a 5th
retry timer is armed (`nextTimerId` grows from 4 to 5).  Only the 6th
failure reaches Errored. -/
theorem C1_counterexample :
    (afterFailures 5).status = Status.reconnecting ∧
    (afterFailures 5).status ≠ Status.error ∧
    (afterFailures 4).nextTimerId = 4 ∧
    (afterFailures 5).nextTimerId = 5 := by decide

/-- C1 (amended): on every error/close notification the manager clears
the connected flags and, while fewer than 5 attempts were counted,
schedules a reconnect after `2^attemptCount` seconds (so the Nth retry
waits `2^(N-1)` seconds), incrementing the counter before the retry;
after N consecutive open failures with N ≤ 5 the state is Reconnecting
with `attemptCount = N` and the last armed timer has delay `2^(N-1)`
seconds; after the 6th consecutive failure the state is Errored and no
further timer is armed. -/
theorem C1_backoff :
    (∀ s : LifeState, s.reconnectAttempts < 5 →
       (handleDisconnect s).reconnectAttempts = s.reconnectAttempts + 1 ∧
       (handleDisconnect s).status = Status.reconnecting ∧
       (handleDisconnect s).reconnectTimeoutRef = some s.nextTimerId ∧
       (handleDisconnect s).liveTimers =
         s.liveTimers ++ [(s.nextTimerId, 2 ^ s.reconnectAttempts * 1000)]) ∧
    (∀ n : Nat, 1 ≤ n → n ≤ 5 →
       (afterFailures n).status = Status.reconnecting ∧
       (afterFailures n).reconnectAttempts = n ∧
       (afterFailures n).liveTimers.getLast? = some (n - 1, 2 ^ (n - 1) * 1000)) ∧
    ((afterFailures 6).status = Status.error ∧
     (afterFailures 6).nextTimerId = (afterFailures 5).nextTimerId ∧
     (afterFailures 6).reconnectAttempts = (afterFailures 5).reconnectAttempts) := by
  refine ⟨?_, ?_, ?_⟩
  · intro s h
    simp [handleDisconnect, h]
  · intro n h1 h2
    interval_cases n <;> decide
  · decide

/-- C1 (witness): the amended theorem at the 5th consecutive failure:
Reconnecting, 5 counted attempts, last delay `2^4` seconds. -/
theorem C1_backoff_witness :
    (afterFailures 5).status = Status.reconnecting ∧
    (afterFailures 5).reconnectAttempts = 5 ∧
    (afterFailures 5).liveTimers.getLast? = some (5 - 1, 2 ^ (5 - 1) * 1000) :=
  C1_backoff.2.1 5 (by norm_num) (by norm_num)

/-! ## Claim C2 — pending reconnect timers -/

/-- C2 (counterexample): two overlapping disconnect notifications
(`onerror` then `onclose`, both of which invoke `handleDisconnect`)
from the mounted state leave two armed timers and increment the attempt
counter twice; the claim says the first pending timer would be
cancelled before the second is scheduled. -/
theorem C2_counterexample :
    (handleDisconnect (handleDisconnect initLife)).liveTimers.length = 2 ∧
    (handleDisconnect (handleDisconnect initLife)).reconnectAttempts = 2 := by decide

/-- C2 (amended): `handleDisconnect` arms a new reconnect timer and
overwrites the stored handle without cancelling the previously pending
timer (the previous armed timers all stay live and the counter
increments on each notification); a pending reconnect timer is
cancelled only by the teardown `stopEverything`, which clears the
stored handle. -/
theorem C2_timer :
    (∀ s : LifeState, s.reconnectAttempts < 5 →
       (handleDisconnect s).liveTimers =
         s.liveTimers ++ [(s.nextTimerId, 2 ^ s.reconnectAttempts * 1000)] ∧
       (handleDisconnect s).reconnectAttempts = s.reconnectAttempts + 1) ∧
    (∀ (s : LifeState) (t : Nat), s.reconnectTimeoutRef = some t →
       (stopEverything s).1.reconnectTimeoutRef = none ∧
       (stopEverything s).1.liveTimers = s.liveTimers.filter (fun p => p.1 ≠ t)) := by
  constructor
  · intro s h
    simp [handleDisconnect, h]
  · intro s t h
    simp only [stopEverything, h]
    split_ifs <;> simp

/-- C2 (witness): the amended theorem at the concrete mid-session
state: a disconnect notification appends timer 8 with delay `2^0`
seconds while timer 7 stays armed, and `stopEverything` cancels the
stored timer 7. -/
theorem C2_timer_witness :
    ((handleDisconnect liveSession).liveTimers =
       liveSession.liveTimers ++
         [(liveSession.nextTimerId, 2 ^ liveSession.reconnectAttempts * 1000)] ∧
     (handleDisconnect liveSession).reconnectAttempts =
       liveSession.reconnectAttempts + 1) ∧
    ((stopEverything liveSession).1.reconnectTimeoutRef = none ∧
     (stopEverything liveSession).1.liveTimers =
       liveSession.liveTimers.filter (fun p => p.1 ≠ 7)) :=
  ⟨C2_timer.1 liveSession (by decide), C2_timer.2 liveSession 7 (by decide)⟩

/-! ## Claim C3 — tool-call acknowledgments -/

/-- C3 (counterexample): an invocation whose tool name matches neither
`draw_on_whiteboard` nor `show_learning_material` falls through both
branches of the dispatcher: no acknowledgment at all is sent (the claim
requires exactly one for every invocation, including one with an
unrecognized name). -/
theorem C3_counterexample :
    (dispatchToolCall true true true unknownTool).acks = [] ∧
    (dispatchToolCall true true true unknownTool).acks.length ≠ 1 := by decide

/-- C3 (amended): an invocation of either of the two recognized tool
names receives exactly one acknowledgment keyed by the invocation's id
(sent once the session promise resolves to a live session), even when
its action string is unrecognized; a recognized whiteboard invocation
with an unrecognized action causes zero draw effects; an invocation
with an unrecognized tool name receives no acknowledgment and has no
effect at all. -/
theorem C3_dispatch :
    (∀ (wb ctx : Bool) (fc : FunctionCallMsg),
       (fc.name = "draw_on_whiteboard" ∨ fc.name = "show_learning_material") →
       (dispatchToolCall wb ctx true fc).acks = [{ id := fc.id, name := fc.name }]) ∧
    (∀ (wb ctx : Bool) (fc : FunctionCallMsg),
       fc.name = "draw_on_whiteboard" →
       fc.action ≠ "draw_rect" → fc.action ≠ "draw_circle" →
       fc.action ≠ "draw_line" → fc.action ≠ "write_text" → fc.action ≠ "clear" →
       (dispatchToolCall wb ctx true fc).draws.filter isDrawOp = []) ∧
    (∀ (wb ctx live : Bool) (fc : FunctionCallMsg),
       fc.name ≠ "draw_on_whiteboard" → fc.name ≠ "show_learning_material" →
       dispatchToolCall wb ctx live fc =
         { acks := [], draws := [], newMaterial := none, imageRequest := none }) := by
  refine ⟨?_, ?_, ?_⟩
  · intro wb ctx fc h
    rcases h with h | h
    · simp [dispatchToolCall, h]
    · have hne : ("show_learning_material" : String) ≠ "draw_on_whiteboard" := by decide
      by_cases ha : fc.action = "show" <;> simp [dispatchToolCall, h, hne, ha]
  · intro wb ctx fc h h1 h2 h3 h4 h5
    cases wb <;> cases ctx <;>
      simp [dispatchToolCall, h, tutorDraw, h1, h2, h3, h4, h5, isDrawOp]
  · intro wb ctx live fc h h2
    simp [dispatchToolCall, h, h2]

/-- C3 (witness): the amended theorem at a whiteboard invocation whose
action string `"wiggle"` is outside the tool's enumeration: exactly one
acknowledgment keyed by its id, zero draw effects. -/
theorem C3_dispatch_witness :
    (dispatchToolCall true true true drawWiggle).acks =
      [{ id := drawWiggle.id, name := drawWiggle.name }] ∧
    (dispatchToolCall true true true drawWiggle).draws.filter isDrawOp = [] :=
  ⟨C3_dispatch.1 true true drawWiggle (Or.inl rfl),
   C3_dispatch.2.1 true true drawWiggle rfl (by decide) (by decide) (by decide)
     (by decide) (by decide)⟩

/-! ## Claim C4 — learning-material image patching -/

/-- C4 (counterexample): a first `show` carries an image prompt, a
second `show` replaces the material, then the first request's image
arrives: the code patches the *second* material with the first
request's image (no generation/identity token exists), while the claim
says the late result would be dropped silently, leaving the current
material unchanged. -/
theorem C4_counterexample :
    applyImageResult "data:image/png;base64,AAA" matSecond ≠ matSecond ∧
    applyImageResult "data:image/png;base64,AAA" matSecond =
      some { title := formatAIText "Animal cells",
             content := formatAIText "No cell wall.",
             imageUrl := some "data:image/png;base64,AAA",
             isGenerating := false } := by decide

/-- C4 (amended): a `show` call with an image prompt replaces the
material immediately with its text fields populated and the in-flight
flag true; the asynchronous image result patches only the `imageUrl`
and in-flight fields of whatever material is current when it arrives —
it is dropped only when no material is shown at all, and in particular
it patches the current material even when the material the request was
made for has since been replaced (there is no identity token). -/
theorem C4_material :
    (∀ (t c : String) (iu p : Option String) (cur : Option LearningMaterial),
       showMaterial t c iu p cur =
         some { title := formatAIText t, content := formatAIText c,
                imageUrl := iu, isGenerating := jsTruthy p }) ∧
    (∀ (url : String) (m : LearningMaterial),
       applyImageResult url (some m) =
         some { m with imageUrl := some url, isGenerating := false }) ∧
    (∀ url : String, applyImageResult url none = none) ∧
    (∀ (t1 c1 t2 c2 : String) (iu1 iu2 p1 p2 : Option String) (url : String),
       applyImageResult url
           (showMaterial t2 c2 iu2 p2 (showMaterial t1 c1 iu1 p1 none)) =
         some { title := formatAIText t2, content := formatAIText c2,
                imageUrl := some url, isGenerating := false }) :=
  ⟨fun _ _ _ _ _ => rfl, fun _ _ => rfl, fun _ => rfl,
   fun _ _ _ _ _ _ _ _ _ => rfl⟩

/-! ## Claim C5 — logographic-script normalization -/

/-- C5: the normalizer is a single-pass global regex replace with
non-overlapping matches, so on the alternating input
`"你 好 世 界"` the first match consumes `好` and the space between
`好` and `世` survives: the code returns `"你好 世界"`, not the
`"你好世界"` the claim (and the repository's own prompt instruction
"If Chinese, NO spaces between characters") requires.  The second test
vector of the claim does hold: `"Hi 你好"` is preserved. -/
theorem C5_normalizer :
    formatAIText "你 好 世 界" = "你好 世界" ∧
    formatAIText "你 好 世 界" ≠ "你好世界" ∧
    formatAIText "Hi 你好" = "Hi 你好" := by decide

/-! ## Claim C6 — output scheduler -/

/-- C6: `enqueue` starts each buffer at
`max nextStartTime currentPlaybackClock`, advances `nextStartTime` by
the buffer's duration and registers the source in the active set;
enqueuing buffers of durations `d1, d2, d3` with the clock at 0 yields
start times `0, d1, d1 + d2`; and `interrupt` (the `cleanupAudio`
routine), invoked on any state, stops every active source, empties the
active set and resets the next-start offset to 0. -/
theorem C6_scheduler :
    (∀ (s : SchedState) (clock dur : Seconds),
       (enqueue clock dur s).started =
         s.started ++ [(s.nextId, max s.nextStartTime clock)] ∧
       (enqueue clock dur s).nextStartTime = max s.nextStartTime clock + dur ∧
       (enqueue clock dur s).active = s.active ++ [s.nextId]) ∧
    (∀ d1 d2 d3 : Seconds, 0 ≤ d1 → 0 ≤ d2 →
       (enqueue 0 d3 (enqueue 0 d2 (enqueue 0 d1 initSched))).started.map Prod.snd =
         [0, d1, d1 + d2]) ∧
    (∀ s : SchedState,
       (interrupt s).active = [] ∧ (interrupt s).nextStartTime = 0 ∧
       ∀ i ∈ s.active, i ∈ (interrupt s).stopped) := by
  refine ⟨fun s clock dur => ⟨rfl, rfl, rfl⟩, ?_, ?_⟩
  · intro d1 d2 d3 h1 h2
    have m1 : max d1 (0 : Seconds) = d1 := max_eq_left h1
    have m2 : max (d1 + d2) (0 : Seconds) = d1 + d2 := max_eq_left (add_nonneg h1 h2)
    simp [enqueue, initSched, m1, m2]
  · intro s
    refine ⟨rfl, rfl, fun i hi => ?_⟩
    simp only [interrupt, List.mem_append]
    exact Or.inr hi

/-- C6 (witness): the scheduling sequence of the theorem at durations
`1, 2, 3` seconds: start times `0, 1, 1 + 2`. -/
theorem C6_scheduler_witness :
    (enqueue 0 3 (enqueue 0 2 (enqueue 0 1 initSched))).started.map Prod.snd =
      [0, 1, 1 + 2] :=
  C6_scheduler.2.1 1 2 3 (by norm_num) (by norm_num)

/-! ## Claim C7 — transcript turn finalization -/

/-- C7 (counterexample): the model accumulator is passed through
`formatAIText` before being emitted, so for the model fragments
`"你"` then `" 好"` the finalized record's text is `你好`, which is
not the exact concatenation `你 好` of the fragments the claim
requires. -/
theorem C7_counterexample :
    (finalizeTurn
        (applyFragments [(Role.model, ['你']), (Role.model, [' ', '好'])]
          { user := [], model := [] })
        []).2 =
      [{ role := Role.model, text := ['你', '好'] }] ∧
    (['你', '好'] : Txt) ≠ ['你'] ++ [' ', '好'] := by decide

/-- C7 (amended): for every sequence of fragment appends followed by
one finalize, the log gains a user record first when the concatenated
user text trims non-empty, then a model record when the normalized
concatenated model text trims non-empty; the user record's text is the
exact concatenation of the user fragments in arrival order, the model
record's text is the normalizer applied to the exact concatenation of
the model fragments; both accumulators are cleared afterwards, and a
finalize with both accumulators empty appends no record (so a second
consecutive finalize appends nothing). -/
theorem C7_finalize :
    (∀ (fs : List (Role × Txt)) (log : List TranscriptMsg),
       (finalizeTurn (applyFragments fs { user := [], model := [] }) log).2 =
         log ++ (if !(jsTrim (userConcat fs)).isEmpty then
                   [{ role := Role.user, text := userConcat fs }] else [])
             ++ (if !(jsTrim (formatCore (modelConcat fs))).isEmpty then
                   [{ role := Role.model, text := formatCore (modelConcat fs) }]
                 else []) ∧
       (finalizeTurn (applyFragments fs { user := [], model := [] }) log).1 =
         { user := [], model := [] }) ∧
    (∀ log : List TranscriptMsg,
       (finalizeTurn { user := [], model := [] } log).2 = log) := by
  constructor
  · intro fs log
    constructor
    · have hu := applyFragments_user fs { user := [], model := [] }
      have hm := applyFragments_model fs { user := [], model := [] }
      simp only [List.nil_append] at hu hm
      simp only [finalizeTurn, hu, hm]
      cases h1 : (jsTrim (userConcat fs)).isEmpty <;>
        cases h2 : (jsTrim (formatCore (modelConcat fs))).isEmpty <;>
          simp [h1, h2]
    · simp [finalizeTurn]
  · intro log
    simp [finalizeTurn, jsTrim, formatCore, fmtRun]

/-! ## Claim C8 — outbound audio frames -/

/-- C8: over any sequence of capture-callback invocations, the frames
sent over the transport are exactly those whose invocation found the
connected flag set, whose session promise resolved to a live session,
and whose continuation found the connected flag still set — in arrival
order.  In particular a frame produced while not connected is dropped
by this invocation and appears in no later send: nothing is queued. -/
theorem C8_frames :
    ∀ evs : List (FrameCtx × Nat),
      processFrames evs =
        (evs.filter (fun e =>
          e.1.connectedAtInvocation && e.1.sessionResolvedLive &&
            e.1.connectedAtResolution)).map Prod.snd := by
  intro evs
  induction evs with
  | nil => rfl
  | cons e rest ih =>
      obtain ⟨c, f⟩ := e
      cases h1 : c.connectedAtInvocation <;>
        cases h2 : c.sessionResolvedLive <;>
          cases h3 : c.connectedAtResolution <;>
            simp [processFrames, onaudioprocess, h1, h2, h3, ih, List.filter_cons]

/-! ## Claim C9 — session teardown -/

/-- C9 (counterexample): on a live mid-session state, the teardown's
effect trace is: stop the playing source, clear the pending reconnect
timer, close the transport, and stop the capture track *last* — not
the capture-first order (a), (b), (c), (d) the claim states. -/
theorem C9_counterexample :
    (stopEverything liveSession).2 =
      [Effect.stopSource 0, Effect.clearTimer 7, Effect.closeTransport,
       Effect.stopCaptureTrack] ∧
    (stopEverything liveSession).2 ≠
      [Effect.stopCaptureTrack, Effect.stopSource 0, Effect.clearTimer 7,
       Effect.closeTransport] := by decide

/-- C9 (amended): ending a session synchronously performs, in this
order: (b) interrupt the output scheduler (stopping every active
source), (c) cancel any pending reconnect timer, (d) close the
transport if open, and (a) stop audio capture and release the device
*last*; the teardown is idempotent: a second call changes nothing and
performs no effect. -/
theorem C9_teardown :
    ∀ s : LifeState,
      (stopEverything s).2 =
        s.sched.active.map Effect.stopSource
        ++ (match s.reconnectTimeoutRef with
            | some t => [Effect.clearTimer t]
            | none => [])
        ++ (if s.sessionRefSet then [Effect.closeTransport] else [])
        ++ (if s.streamOpen then [Effect.stopCaptureTrack] else []) ∧
      stopEverything (stopEverything s).1 = ((stopEverything s).1, []) := by
  intro s
  rcases h : s.reconnectTimeoutRef with _ | t <;>
    cases h2 : s.sessionRefSet <;>
      cases h3 : s.streamOpen <;>
        simp [stopEverything, interrupt, h, h2, h3]

/-! ## Claim C10 — connection attempt guard -/

/-- C10: invoking the connection routine while the connecting flag is
set returns immediately: the state is unchanged (no status change, no
resource acquired or released) and no effect — in particular no second
stream or connection attempt — is performed. -/
theorem C10_guard :
    ∀ (isReconnect : Bool) (s : LifeState),
      s.isConnecting = true → connectToLiveAPI isReconnect s = (s, []) := by
  intro r s h
  simp [connectToLiveAPI, h]

/-- C10 (witness): the guard theorem at the mounted state with the
connecting flag set. -/
theorem C10_guard_witness :
    connectToLiveAPI true { initLife with isConnecting := true } =
      ({ initLife with isConnecting := true }, []) :=
  C10_guard true { initLife with isConnecting := true } rfl

end V2L
